import Mathlib

/-!
Shallow embedding of the sec crate (src/src/lib.rs): the wrapper type
Secret<T> and its trait implementations.

Conventions of the embedding:
- Rust shared and mutable borrows are embedded as the values they point to;
  a str slice of a String is embedded as the String content itself.
- The core::fmt Formatter is embedded as the string buffer accumulated so
  far; write! of a literal appends it to the buffer and always succeeds,
  so the fmt functions return the grown buffer.
- Trait implementations of the inner type T (Clone, PartialEq, PartialOrd,
  Ord, Hash, Default, Deserialize) are passed as explicit function
  parameters, since the wrapper delegates to them verbatim.
- A hasher (core::hash::Hasher) is embedded as a state of some type H that
  every write transforms.
- Serde deserialization is embedded as a function from an input to Except
  with string-valued errors (serde custom errors carry a message string).
- Methods taking a reference to self cannot write through it (the struct
  has no interior mutability), so besides the plain form some operations
  also have a state-passing form returning the receiver as well; the
  returned receiver is the unchanged input, which is exactly what the
  source bodies do. These forms are used to state frame properties.
-/

namespace Sec

/-- Embedding of pub struct Secret<T>(T): a single-field container. -/
structure Secret (T : Type) where
  val : T

/-- Secret::new : wraps the value, no validation. -/
def Secret.new {T : Type} (v : T) : Secret T :=
  ⟨v⟩

/-- Secret::as_ref : creates a secret immutable reference; the shared borrow is embedded as the inner value. -/
def Secret.as_ref {T : Type} (s : Secret T) : Secret T :=
  ⟨s.val⟩

/-- Secret::as_mut : creates a secret mutable reference, embedded as the value it points to. -/
def Secret.as_mut {T : Type} (s : Secret T) : Secret T :=
  ⟨s.val⟩

/-- Secret::reveal : reveals the held value by returning a reference to it. -/
def Secret.reveal {T : Type} (s : Secret T) : T :=
  s.val

/-- Secret::reveal_into : reveals the held value by unwrapping the container. -/
def Secret.reveal_into {T : Type} (s : Secret T) : T :=
  s.val

/-- Secret::map_revealed : applies f to the raw inner value, keeping the result wrapped. -/
def Secret.map_revealed {T V : Type} (s : Secret T) (f : T → V) : Secret V :=
  ⟨f s.val⟩

/-- Secret::<String>::as_str : borrows the inner string as a str slice, still wrapped; String::as_str is embedded as the identity on the string content. -/
def Secret.as_str (s : Secret String) : Secret String :=
  ⟨s.val⟩

/-- Secret::<String>::reveal_str : reveals the borrowed string content unwrapped. -/
def Secret.reveal_str (s : Secret String) : String :=
  s.val

/-- Debug for Secret<T> : the fmt method writes the literal three dots into the formatter and ignores the held value entirely; note the embedding takes no instance or capability of T at all. -/
def Secret.fmtDebug {T : Type} (_ : Secret T) (buf : String) : String :=
  buf ++ "..."

/-- Rendering with the Debug formatter from an empty buffer, as format! with the debug directive does. -/
def Secret.formatDebug {T : Type} (s : Secret T) : String :=
  s.fmtDebug ""

/-- Modelled from the spec: the Display implementation for Secret<T> is absent from src/src/lib.rs (only the tests test_hidden_display, test_non_str_type, test_as_str exercise it); per the spec it writes the same fixed placeholder as Debug, regardless of the held value. -/
def Secret.fmtDisplay {T : Type} (_ : Secret T) (buf : String) : String :=
  buf ++ "..."

/-- Rendering with the Display formatter from an empty buffer. -/
def Secret.formatDisplay {T : Type} (s : Secret T) : String :=
  s.fmtDisplay ""

/-- Clone for Secret<T> : Secret(self.0.clone()), with cloneT the Clone implementation of T. -/
def Secret.clone {T : Type} (cloneT : T → T) (s : Secret T) : Secret T :=
  ⟨cloneT s.val⟩

/-- PartialEq for Secret<T> : self.0.eq(other.0), with eqT the PartialEq implementation of T. -/
def Secret.eq {T : Type} (eqT : T → T → Bool) (a b : Secret T) : Bool :=
  eqT a.val b.val

/-- PartialOrd for Secret<T> (ord feature) : self.0.partial_cmp(other.0), with cmpT the PartialOrd implementation of T. -/
def Secret.pcmp {T : Type} (cmpT : T → T → Option Ordering) (a b : Secret T) : Option Ordering :=
  cmpT a.val b.val

/-- The strict less-than comparison Rust derives from the PartialOrd implementation: a < b holds exactly when partial_cmp yields Some(Less). -/
def Secret.lt {T : Type} (cmpT : T → T → Option Ordering) (a b : Secret T) : Bool :=
  match Secret.pcmp cmpT a b with
  | some Ordering.lt => true
  | _ => false

/-- Ord for Secret<T> (ord feature) : self.0.cmp(other.0), with ordT the Ord implementation of T. -/
def Secret.cmp {T : Type} (ordT : T → T → Ordering) (a b : Secret T) : Ordering :=
  ordT a.val b.val

/-- Hash for Secret<T> : self.0.hash(state), with hashT the Hash implementation of T acting on the hasher state. -/
def Secret.hash {T H : Type} (hashT : T → H → H) (s : Secret T) (state : H) : H :=
  hashT s.val state

/-- Default for Secret<T> : Secret(T::default()), with defT the default value of T. -/
def Secret.default {T : Type} (defT : T) : Secret T :=
  ⟨defT⟩

/-- Default for u32 in core yields zero; u32 is embedded as Nat. -/
def u32Default : Nat :=
  0

/-- From<T> for Secret<T> : Secret(v). Named fromVal because from is a keyword in Lean. -/
def Secret.fromVal {T : Type} (v : T) : Secret T :=
  ⟨v⟩

/-- The fixed custom message the Deserialize implementation substitutes for any inner error. -/
def Secret.deserializeErrMsg : String :=
  "a confidential value could not be deserialized"

/-- Deserialize for Secret<T> : T::deserialize(deserializer).map(Secret), with any resulting error replaced by the fixed custom message so that no fragment of the raw input leaks. -/
def Secret.deserialize {Input T : Type} (dT : Input → Except String T) (i : Input) :
    Except String (Secret T) :=
  match Except.map Secret.new (dT i) with
  | Except.error _ => Except.error Secret.deserializeErrMsg
  | Except.ok v => Except.ok v

/-- Writing w through the mutable reference revealed from as_mut: the assignment replaces the inner value, so the wrapper afterwards holds w. -/
def Secret.writeMut {T : Type} (_ : Secret T) (w : T) : Secret T :=
  ⟨w⟩

/-- State-passing form of reveal: the result together with the receiver, unchanged since the body performs no write. -/
def Secret.revealSt {T : Type} (s : Secret T) : T × Secret T :=
  (s.val, s)

/-- State-passing form of as_ref. -/
def Secret.as_refSt {T : Type} (s : Secret T) : Secret T × Secret T :=
  (⟨s.val⟩, s)

/-- State-passing form of as_str. -/
def Secret.as_strSt (s : Secret String) : Secret String × Secret String :=
  (⟨s.val⟩, s)

/-- State-passing form of the Debug fmt method. -/
def Secret.fmtDebugSt {T : Type} (s : Secret T) (buf : String) : String × Secret T :=
  (buf ++ "...", s)

/-- State-passing form of the PartialEq method, returning both receivers. -/
def Secret.eqSt {T : Type} (eqT : T → T → Bool) (a b : Secret T) :
    Bool × Secret T × Secret T :=
  (eqT a.val b.val, a, b)

/-- State-passing form of the Hash method. -/
def Secret.hashSt {T H : Type} (hashT : T → H → H) (s : Secret T) (state : H) :
    H × Secret T :=
  (hashT s.val state, s)

/-- State-passing form of clone: the fresh copy together with the receiver. -/
def Secret.cloneSt {T : Type} (cloneT : T → T) (s : Secret T) : Secret T × Secret T :=
  (⟨cloneT s.val⟩, s)

/-- C1: for every type T and every wrapped value, debug-formatting yields exactly the fixed three-dot placeholder, independent of the held value (any two wrappers format identically), with no formatting capability of T taken as a parameter; the same holds for the wrappers produced by as_ref, as_mut and as_str. -/
theorem c1_debug_placeholder {T : Type} (s t : Secret T) (p : Secret String) (buf : String) :
    Secret.formatDebug s = "..." ∧
    Secret.fmtDebug s buf = buf ++ "..." ∧
    Secret.fmtDebug s buf = Secret.fmtDebug t buf ∧
    Secret.formatDebug s.as_ref = "..." ∧
    Secret.formatDebug s.as_mut = "..." ∧
    Secret.formatDebug p.as_str = "..." :=
  ⟨rfl, rfl, rfl, rfl, rfl, rfl⟩

/-- C2: display-formatting yields the same fixed placeholder as debug-formatting, regardless of the wrapped value. -/
theorem c2_display_placeholder {T : Type} (s t : Secret T) (buf : String) :
    Secret.formatDisplay s = "..." ∧
    Secret.fmtDisplay s buf = Secret.fmtDebug s buf ∧
    Secret.formatDisplay s = Secret.formatDebug s ∧
    Secret.fmtDisplay s buf = Secret.fmtDisplay t buf :=
  ⟨rfl, rfl, rfl, rfl⟩

/-- C3: deserializing Secret<T> fails exactly when deserializing T from the same input fails; on success the wrapper holds exactly the value the T deserializer produced; on failure the error is the single fixed generic message, so any marker string not already part of that fixed text is absent from the error. -/
theorem c3_deserialize {Input T : Type} (dT : Input → Except String T) (i : Input) :
    ((∃ e, Secret.deserialize dT i = Except.error e) ↔ (∃ e, dT i = Except.error e)) ∧
    (∀ t, dT i = Except.ok t → Secret.deserialize dT i = Except.ok (Secret.new t)) ∧
    (∀ e, dT i = Except.error e →
      Secret.deserialize dT i = Except.error Secret.deserializeErrMsg) ∧
    (∀ (marker e : String), Secret.deserialize dT i = Except.error e →
      ¬ List.IsInfix marker.toList Secret.deserializeErrMsg.toList →
      ¬ List.IsInfix marker.toList e.toList) := by
  refine ⟨?_, ?_, ?_, ?_⟩
  · cases h : dT i with
    | ok t => simp [Secret.deserialize, h, Except.map]
    | error e => simp [Secret.deserialize, h, Except.map]
  · intro t ht
    simp [Secret.deserialize, ht, Except.map]
  · intro e he
    simp [Secret.deserialize, he, Except.map]
  · intro marker e hde hnot
    cases h : dT i with
    | ok t => simp [Secret.deserialize, h, Except.map] at hde
    | error e0 =>
      simp [Secret.deserialize, h, Except.map] at hde
      exact hde ▸ hnot

/-- Witness for C3 at a concrete deserializer: a failing branch whose error carries a marker, and a succeeding branch. -/
theorem c3_deserialize_witness :
    Secret.deserialize (fun b : Bool => cond b (Except.ok 7) (Except.error "MARKER-XYZ")) true =
      Except.ok (Secret.new 7) ∧
    Secret.deserialize (fun b : Bool => cond b (Except.ok 7) (Except.error "MARKER-XYZ")) false =
      Except.error Secret.deserializeErrMsg ∧
    ¬ List.IsInfix "MARKER-XYZ".toList Secret.deserializeErrMsg.toList :=
  ⟨(c3_deserialize (fun b : Bool => cond b (Except.ok 7) (Except.error "MARKER-XYZ")) true).2.1
      7 rfl,
    (c3_deserialize (fun b : Bool => cond b (Except.ok 7) (Except.error "MARKER-XYZ")) false).2.2.1
      "MARKER-XYZ" rfl,
    by decide⟩

/-- C4: construction followed by reveal is a round-trip, and the From conversion coincides with new, so the round-trip also holds through it. -/
theorem c4_roundtrip {T : Type} (v : T) :
    (Secret.new v).reveal_into = v ∧
    (Secret.new v).reveal = v ∧
    Secret.fromVal v = Secret.new v ∧
    (Secret.fromVal v).reveal_into = v ∧
    (Secret.fromVal v).reveal = v :=
  ⟨rfl, rfl, rfl, rfl, rfl⟩

/-- C5: equality of wrappers holds iff equality of the inner values holds, and with the ord feature the derived strict order on wrappers holds iff the inner value comparison yields Less; both delegate verbatim to T. -/
theorem c5_eq_ord {T : Type} (eqT : T → T → Bool) (cmpT : T → T → Option Ordering) (v w : T) :
    Secret.eq eqT (Secret.new v) (Secret.new w) = eqT v w ∧
    (Secret.eq eqT (Secret.new v) (Secret.new w) = true ↔ eqT v w = true) ∧
    Secret.pcmp cmpT (Secret.new v) (Secret.new w) = cmpT v w ∧
    (Secret.lt cmpT (Secret.new v) (Secret.new w) = true ↔ cmpT v w = some Ordering.lt) := by
  refine ⟨rfl, Iff.rfl, rfl, ?_⟩
  unfold Secret.lt Secret.pcmp Secret.new
  cases h : cmpT v w with
  | none => simp
  | some o => cases o <;> simp

/-- C6: hashing the wrapper writes exactly what hashing the inner value writes; given the hash-equality law T itself satisfies, equal wrappers hash equally. -/
theorem c6_hash {T H : Type} (hashT : T → H → H) (eqT : T → T → Bool) (v : T) (st : H)
    (a b : Secret T)
    (law : ∀ x y s0, eqT x y = true → hashT x s0 = hashT y s0)
    (hab : Secret.eq eqT a b = true) :
    Secret.hash hashT (Secret.new v) st = hashT v st ∧
    Secret.hash hashT a st = Secret.hash hashT b st :=
  ⟨rfl, law a.val b.val st hab⟩

/-- Witness for C6 at a concrete hash function and equality. -/
theorem c6_hash_witness :
    Secret.hash (fun n st => st * 31 + n) (Secret.new 7) 1 = 38 ∧
    Secret.hash (fun n st => st * 31 + n) (Secret.new 7) 1 =
      Secret.hash (fun n st => st * 31 + n) (Secret.new 7) 1 := by
  have h := c6_hash (fun n st => st * 31 + n) Nat.beq 7 1
    (Secret.new 7) (Secret.new 7)
    (fun x y s0 hxy => by rw [Nat.eq_of_beq_eq_true hxy]) (by decide)
  exact ⟨h.1, h.2⟩

/-- C7: map_revealed applies the function to the raw inner value and rewraps the result; the concrete doubling scenario yields 42, and default construction wraps the default value of T, zero for u32. -/
theorem c7_map_default {T V : Type} (v : T) (f : T → V) :
    ((Secret.new v).map_revealed f).reveal_into = f v ∧
    ((Secret.new 21).map_revealed (fun x => x * 2)).reveal_into = 42 ∧
    (Secret.default u32Default).reveal_into = 0 :=
  ⟨rfl, by decide, rfl⟩

/-- C8: the borrowed views wrap the very same inner value: as_ref and as_mut preserve reveal, as_str wraps exactly the string content that reveal_str returns unwrapped. -/
theorem c8_views {T : Type} (s : Secret T) (p : Secret String) :
    s.as_ref.reveal = s.reveal ∧
    s.as_mut.reveal = s.reveal ∧
    p.as_str = Secret.new p.reveal_str ∧
    p.as_str.reveal_into = p.reveal_str ∧
    p.reveal_str = p.reveal :=
  ⟨rfl, rfl, rfl, rfl, rfl⟩

/-- C9: every core operation except deserialization is total: at every input each returns normally with the stated value, with no error case in its result. -/
theorem c9_total {T V H : Type} (v d : T) (s t : Secret T) (p : Secret String)
    (f : T → V) (eqT : T → T → Bool) (cmpT : T → T → Option Ordering)
    (ordT : T → T → Ordering) (hashT : T → H → H) (cloneT : T → T) (st : H) (buf : String) :
    (Secret.new v).val = v ∧
    (Secret.fromVal v).val = v ∧
    (Secret.default d).val = d ∧
    s.reveal = s.val ∧
    s.reveal_into = s.val ∧
    (s.map_revealed f).val = f s.val ∧
    s.as_ref.val = s.val ∧
    s.as_mut.val = s.val ∧
    p.as_str.val = p.val ∧
    p.reveal_str = p.val ∧
    Secret.fmtDebug s buf = buf ++ "..." ∧
    Secret.fmtDisplay s buf = buf ++ "..." ∧
    Secret.eq eqT s t = eqT s.val t.val ∧
    Secret.pcmp cmpT s t = cmpT s.val t.val ∧
    Secret.cmp ordT s t = ordT s.val t.val ∧
    Secret.hash hashT s st = hashT s.val st ∧
    (Secret.clone cloneT s).val = cloneT s.val :=
  ⟨rfl, rfl, rfl, rfl, rfl, rfl, rfl, rfl, rfl, rfl, rfl, rfl, rfl, rfl, rfl, rfl, rfl⟩

/-- C10: writing through the revealed mutable reference makes reveal return the written value, and this is the only state change: the state-passing forms of the non-mutating operations return their receivers unchanged, and writing into a clone leaves the original wrapper holding its old value. -/
theorem c10_frame {T H : Type} (s a b : Secret T) (p : Secret String) (w : T)
    (eqT : T → T → Bool) (hashT : T → H → H) (cloneT : T → T) (st : H) (buf : String) :
    (s.writeMut w).reveal = w ∧
    s.revealSt.2 = s ∧
    s.as_refSt.2 = s ∧
    p.as_strSt.2 = p ∧
    (Secret.fmtDebugSt s buf).2 = s ∧
    (Secret.eqSt eqT a b).2 = (a, b) ∧
    (Secret.hashSt hashT s st).2 = s ∧
    (Secret.cloneSt cloneT s).2 = s ∧
    ((Secret.cloneSt cloneT s).1.writeMut w).reveal = w ∧
    (Secret.cloneSt cloneT s).2.reveal = s.val :=
  ⟨rfl, rfl, rfl, rfl, rfl, rfl, rfl, rfl, rfl, rfl⟩

end Sec
